import Mathlib

/-!
Shallow embedding of the `digest` crate adapter layer
(`src/digest/src/core_api.rs`, `src/digest/src/digest.rs`,
`src/digest/src/wrapper.rs`).

Bytes are modelled as `Nat`, byte strings as `List Nat`, and a whole block
as a `List Nat` of the core block size.  A block core `D` is modelled as a
dictionary of the capability-trait methods over an explicit state type `σ`;
the stateful Rust methods become explicit state-passing functions.
-/

namespace DigestSpec

/-- Modelled from the spec: the external `block_buffer` collaborator
(`BlockBuffer::input_blocks`), which is not part of this repository.
Per the spec it slices the held remainder plus the incoming bytes into
zero or more whole `bs`-sized blocks, retaining the true remainder
(shorter than one block).  Returns `(whole blocks, remainder)`. -/
def splitBlocks (bs : Nat) (l : List Nat) : List (List Nat) × List Nat :=
  if 0 < bs ∧ bs ≤ l.length then
    let rest := splitBlocks bs (l.drop bs)
    (l.take bs :: rest.1, rest.2)
  else ([], l)
termination_by l.length
decreasing_by simp only [List.length_drop]; omega

/-- `trait UpdateCore` (core_api.rs lines 6-12): a block core exposes its
block size and `update_blocks`, which absorbs a list of whole blocks into
the compression state.  `BlockSize` is the `blockSize` field. -/
structure UpdateCore (σ : Type) where
  blockSize : Nat
  update_blocks : σ → List (List Nat) → σ

/-- The documented contract of `UpdateCore::update_blocks`: it absorbs the
given blocks in order into the state, so absorbing no blocks is the
identity and absorbing two lists in succession equals absorbing their
concatenation ("mutates internal state by absorbing each block in order;
must be callable zero or more times"). -/
def UpdateCore.Lawful {σ : Type} (c : UpdateCore σ) : Prop :=
  (∀ s, c.update_blocks s [] = s) ∧
  (∀ s b1 b2, c.update_blocks (c.update_blocks s b1) b2 = c.update_blocks s (b1 ++ b2))

/-- `trait FixedOutputCore: UpdateCore` (core_api.rs lines 20-35) together
with the `Reset` and `Default` capabilities `CoreWrapper` impls require of
`D`.  `finalize_fixed_core` takes the core state and the buffered
remainder, and returns the mutated ("dirty") core state, the mutated
buffer contents, and the bytes written into `out`. -/
structure FixedOutputCore (σ : Type) extends UpdateCore σ where
  outputSize : Nat
  init : σ
  reset : σ → σ
  finalize_fixed_core : σ → List Nat → σ × List Nat × List Nat

/-- `trait ExtendableOutputCore: UpdateCore` (core_api.rs lines 44-58) with
the `Reset`/`Default` capabilities; `finalize_xof_core` returns the dirty
core state, the mutated buffer, and the XOF reader value of type `ρ`. -/
structure ExtendableOutputCore (σ ρ : Type) extends UpdateCore σ where
  init : σ
  reset : σ → σ
  finalize_xof_core : σ → List Nat → σ × List Nat × ρ

/-- `trait XofReader` as a dictionary: `read` fills a caller buffer of the
requested length, returning the advanced reader and the bytes produced. -/
structure XofReaderImpl (ρ : Type) where
  read : ρ → Nat → ρ × List Nat

/-- `struct CoreWrapper<D>` (core_api.rs lines 63-67): a wrapped core state
plus the partial-block buffer (its held remainder bytes). -/
structure CoreWrapper (σ : Type) where
  core : σ
  buffer : List Nat

namespace CoreWrapper

/-- `#[derive(Default)]` for `CoreWrapper`: the default core state paired
with an empty buffer, given the default state `i` of the wrapped core. -/
def defaultOf {σ : Type} (i : σ) : CoreWrapper σ :=
  { core := i, buffer := [] }

/-- `impl Reset for CoreWrapper` (core_api.rs lines 69-75): reset the core
and reset the buffer (the buffer collaborator's reset empties it). -/
def reset {σ : Type} (rst : σ → σ) (w : CoreWrapper σ) : CoreWrapper σ :=
  { core := rst w.core, buffer := [] }

/-- `impl Update for CoreWrapper` (core_api.rs lines 77-83):
`buffer.input_blocks(input, |blocks| core.update_blocks(blocks))` — the
remainder plus the input is sliced into whole blocks fed to the core, and
the new remainder stays buffered. -/
def update {σ : Type} (c : UpdateCore σ) (w : CoreWrapper σ) (input : List Nat) :
    CoreWrapper σ :=
  let p := splitBlocks c.blockSize (w.buffer ++ input)
  { core := c.update_blocks w.core p.1, buffer := p.2 }

/-- `FixedOutput::finalize_into` (core_api.rs lines 89-95): consume the
wrapper and run `finalize_fixed_core` on its parts; the result is the
bytes written into `out`. -/
def finalize_into {σ : Type} (c : FixedOutputCore σ) (w : CoreWrapper σ) : List Nat :=
  (c.finalize_fixed_core w.core w.buffer).2.2

/-- `FixedOutput::finalize_into_reset` (core_api.rs lines 97-102): run
`finalize_fixed_core` on the wrapper's parts (mutating both), then
`self.reset()`.  Returns the post-call wrapper and the output bytes. -/
def finalize_into_reset {σ : Type} (c : FixedOutputCore σ) (w : CoreWrapper σ) :
    CoreWrapper σ × List Nat :=
  let r := c.finalize_fixed_core w.core w.buffer
  (reset c.reset { core := r.1, buffer := r.2.1 }, r.2.2)

/-- `ExtendableOutput::finalize_xof` (core_api.rs lines 108-115): consume
the wrapper and return the reader from `finalize_xof_core`. -/
def finalize_xof {σ ρ : Type} (c : ExtendableOutputCore σ ρ) (w : CoreWrapper σ) : ρ :=
  (c.finalize_xof_core w.core w.buffer).2.2

/-- `ExtendableOutput::finalize_xof_reset` (core_api.rs lines 117-123):
run `finalize_xof_core`, then `self.reset()`, returning the reader. -/
def finalize_xof_reset {σ ρ : Type} (c : ExtendableOutputCore σ ρ) (w : CoreWrapper σ) :
    CoreWrapper σ × ρ :=
  let r := c.finalize_xof_core w.core w.buffer
  (reset c.reset { core := r.1, buffer := r.2.1 }, r.2.2)

/-- `impl std::io::Write for CoreWrapper`, `write` (core_api.rs lines
129-132): `Update::update(self, buf); Ok(buf.len())`.  `io::Result` is
modelled as `Except Unit`. -/
def write {σ : Type} (c : UpdateCore σ) (w : CoreWrapper σ) (buf : List Nat) :
    CoreWrapper σ × Except Unit Nat :=
  (update c w buf, Except.ok buf.length)

/-- `impl std::io::Write for CoreWrapper`, `flush` (core_api.rs lines
135-137): `Ok(())`, no state change. -/
def flush {σ : Type} (w : CoreWrapper σ) : CoreWrapper σ × Except Unit Unit :=
  (w, Except.ok ())

end CoreWrapper

/-- Modelled from the spec: `FixedOutput::finalize_fixed`, the provided
trait-glue method of the `digest` crate that is not under src/.  Per the
spec, the consuming `finalize(self) -> output` produces the digest by
allocating a default output slot and writing into it via `finalize_into`,
so its value is exactly the bytes `finalize_into` writes. -/
def finalize_fixed {σ : Type} (c : FixedOutputCore σ) (w : CoreWrapper σ) : List Nat :=
  CoreWrapper.finalize_into c w

/-! The blanket `impl Digest for D` of digest.rs (lines 52-102),
specialized to `CoreWrapper` over a fixed-output core. -/

namespace Digest

/-- `Digest::new` (digest.rs lines 56-58): `Self::default()`. -/
def new {σ : Type} (c : FixedOutputCore σ) : CoreWrapper σ :=
  CoreWrapper.defaultOf c.init

/-- `Digest::update` (digest.rs lines 61-63): `Update::update(self, data)`. -/
def update {σ : Type} (c : FixedOutputCore σ) (w : CoreWrapper σ) (data : List Nat) :
    CoreWrapper σ :=
  CoreWrapper.update c.toUpdateCore w data

/-- `Digest::chain` (digest.rs lines 66-72): update, then return `self`. -/
def chain {σ : Type} (c : FixedOutputCore σ) (w : CoreWrapper σ) (data : List Nat) :
    CoreWrapper σ :=
  update c w data

/-- `Digest::finalize` (digest.rs lines 75-77): `self.finalize_fixed()`. -/
def finalize {σ : Type} (c : FixedOutputCore σ) (w : CoreWrapper σ) : List Nat :=
  finalize_fixed c w

/-- `Digest::finalize_reset` (digest.rs lines 80-84):
`let res = self.clone().finalize_fixed(); self.reset(); res` — returns
the post-reset wrapper and the result. -/
def finalize_reset {σ : Type} (c : FixedOutputCore σ) (w : CoreWrapper σ) :
    CoreWrapper σ × List Nat :=
  (CoreWrapper.reset c.reset w, finalize_fixed c w)

/-- `Digest::reset` (digest.rs lines 87-89): `Reset::reset(self)`. -/
def reset {σ : Type} (c : FixedOutputCore σ) (w : CoreWrapper σ) : CoreWrapper σ :=
  CoreWrapper.reset c.reset w

/-- `Digest::output_size` (digest.rs lines 92-94). -/
def output_size {σ : Type} (c : FixedOutputCore σ) : Nat :=
  c.outputSize

/-- `Digest::digest` (digest.rs lines 97-101): default-construct, update
once with `data`, then `finalize_fixed`. -/
def digest {σ : Type} (c : FixedOutputCore σ) (data : List Nat) : List Nat :=
  finalize_fixed c (CoreWrapper.update c.toUpdateCore (CoreWrapper.defaultOf c.init) data)

end Digest

/-- `trait FixedOutputDirtyCore` of fixed.rs as used by wrapper.rs: same
shape as `FixedOutputCore` but its finalize primitive is named
`finalize_into_dirty_core`.  It extends the same `UpdateCore` trait the
core_api.rs wrapper uses (wrapper.rs imports `crate::UpdateCore`). -/
structure FixedOutputDirtyCore (σ : Type) extends UpdateCore σ where
  outputSize : Nat
  init : σ
  reset : σ → σ
  finalize_into_dirty_core : σ → List Nat → σ × List Nat × List Nat

/-- `trait ExtendableOutputDirtyCore` of xof.rs as used by wrapper.rs
(lines 50-66): same shape as `ExtendableOutputCore` but its finalize
primitive is named `finalize_xof_dirty_core`.  It extends the same
`UpdateCore` trait. -/
structure ExtendableOutputDirtyCore (σ ρ : Type) extends UpdateCore σ where
  init : σ
  reset : σ → σ
  finalize_xof_dirty_core : σ → List Nat → σ × List Nat × ρ

/-- The second `struct CoreWrapper<D>` (wrapper.rs lines 11-15): identical
fields, wrapped over a dirty-finalize core. -/
structure DirtyWrapper (σ : Type) where
  core : σ
  buffer : List Nat

namespace DirtyWrapper

/-- `#[derive(Default)]` for the wrapper.rs `CoreWrapper`. -/
def defaultOf {σ : Type} (i : σ) : DirtyWrapper σ :=
  { core := i, buffer := [] }

/-- `impl Reset for CoreWrapper` (wrapper.rs lines 17-23): generic over
`D: Reset + UpdateCore`, so it takes the core's reset primitive. -/
def reset {σ : Type} (rst : σ → σ) (w : DirtyWrapper σ) : DirtyWrapper σ :=
  { core := rst w.core, buffer := [] }

/-- `impl Update for CoreWrapper` (wrapper.rs lines 25-31): generic over
`D: UpdateCore`, the same trait core_api.rs uses. -/
def update {σ : Type} (u : UpdateCore σ) (w : DirtyWrapper σ) (input : List Nat) :
    DirtyWrapper σ :=
  let p := splitBlocks u.blockSize (w.buffer ++ input)
  { core := u.update_blocks w.core p.1, buffer := p.2 }

/-- `FixedOutput::finalize_into` (wrapper.rs lines 37-40). -/
def finalize_into {σ : Type} (c : FixedOutputDirtyCore σ) (w : DirtyWrapper σ) : List Nat :=
  (c.finalize_into_dirty_core w.core w.buffer).2.2

/-- `FixedOutput::finalize_into_reset` (wrapper.rs lines 43-47). -/
def finalize_into_reset {σ : Type} (c : FixedOutputDirtyCore σ) (w : DirtyWrapper σ) :
    DirtyWrapper σ × List Nat :=
  let r := c.finalize_into_dirty_core w.core w.buffer
  (reset c.reset { core := r.1, buffer := r.2.1 }, r.2.2)

/-- `ExtendableOutput::finalize_xof` (wrapper.rs lines 54-57): consume the
wrapper and return the reader from `finalize_xof_dirty_core`. -/
def finalize_xof {σ ρ : Type} (c : ExtendableOutputDirtyCore σ ρ) (w : DirtyWrapper σ) : ρ :=
  (c.finalize_xof_dirty_core w.core w.buffer).2.2

/-- `ExtendableOutput::finalize_xof_reset` (wrapper.rs lines 60-65): run
`finalize_xof_dirty_core`, then `self.reset()`, returning the reader. -/
def finalize_xof_reset {σ ρ : Type} (c : ExtendableOutputDirtyCore σ ρ) (w : DirtyWrapper σ) :
    DirtyWrapper σ × ρ :=
  let r := c.finalize_xof_dirty_core w.core w.buffer
  (reset c.reset { core := r.1, buffer := r.2.1 }, r.2.2)

/-- View of a wrapper.rs adapter state as a core_api.rs adapter state
(the two structs have the same fields). -/
def toCW {σ : Type} (w : DirtyWrapper σ) : CoreWrapper σ :=
  { core := w.core, buffer := w.buffer }

end DirtyWrapper

/-- One streaming operation applied to an adapter: an `update` call with
some bytes, or a `reset`. -/
inductive HashOp where
  | upd (input : List Nat)
  | rst

/-- Run a sequence of streaming operations on the core_api.rs adapter,
given the wrapped core's update dictionary and reset primitive. -/
def runOps {σ : Type} (u : UpdateCore σ) (rst : σ → σ) (w : CoreWrapper σ) :
    List HashOp → CoreWrapper σ
  | [] => w
  | HashOp.upd input :: rest => runOps u rst (CoreWrapper.update u w input) rest
  | HashOp.rst :: rest => runOps u rst (CoreWrapper.reset rst w) rest

/-- Run a sequence of streaming operations on the wrapper.rs adapter,
given the wrapped core's update dictionary and reset primitive. -/
def runOpsDirty {σ : Type} (u : UpdateCore σ) (rst : σ → σ) (w : DirtyWrapper σ) :
    List HashOp → DirtyWrapper σ
  | [] => w
  | HashOp.upd input :: rest => runOpsDirty u rst (DirtyWrapper.update u w input) rest
  | HashOp.rst :: rest => runOpsDirty u rst (DirtyWrapper.reset rst w) rest

/-- Feed a list of chunks through successive `update` calls. -/
def updateChunks {σ : Type} (c : UpdateCore σ) (w : CoreWrapper σ)
    (chunks : List (List Nat)) : CoreWrapper σ :=
  chunks.foldl (CoreWrapper.update c) w

/-- Perform a sequence of reads of the given lengths on an XOF reader,
collecting the bytes each read produces. -/
def readStream {ρ : Type} (R : XofReaderImpl ρ) (r : ρ) : List Nat → List (List Nat)
  | [] => []
  | n :: rest =>
    let p := R.read r n
    p.2 :: readStream R p.1 rest

/-- A tiny concrete fixed-output block core used to witness the theorems:
its state is the transcript of absorbed block bytes, `update_blocks`
appends the blocks, finalize reports the transcript length plus the sum
of the buffered remainder and dirties the state. -/
def toyCore : FixedOutputCore (List Nat) where
  blockSize := 2
  update_blocks := fun s blocks => s ++ blocks.flatten
  outputSize := 1
  init := []
  reset := fun _ => []
  finalize_fixed_core := fun s buf => (s ++ [99], buf ++ [98], [s.length + buf.sum])

/-- A concrete dirty-finalize core with the same behaviour as `toyCore`,
used to witness the equivalence of the two wrapper implementations. -/
def toyDirty : FixedOutputDirtyCore (List Nat) where
  blockSize := 2
  update_blocks := fun s blocks => s ++ blocks.flatten
  outputSize := 1
  init := []
  reset := fun _ => []
  finalize_into_dirty_core := fun s buf => (s ++ [99], buf ++ [98], [s.length + buf.sum])

/-- A tiny concrete XOF core: the reader value is the transcript plus the
buffered remainder, read as a byte stream. -/
def toyXof : ExtendableOutputCore (List Nat) (List Nat) where
  blockSize := 2
  update_blocks := fun s blocks => s ++ blocks.flatten
  init := []
  reset := fun _ => []
  finalize_xof_core := fun s buf => (s ++ [99], buf ++ [98], s ++ 55 :: buf)

/-- A concrete dirty XOF core with the same behaviour as `toyXof`, used
to witness the equivalence of the two wrapper implementations. -/
def toyXofDirty : ExtendableOutputDirtyCore (List Nat) (List Nat) where
  blockSize := 2
  update_blocks := fun s blocks => s ++ blocks.flatten
  init := []
  reset := fun _ => []
  finalize_xof_dirty_core := fun s buf => (s ++ [99], buf ++ [98], s ++ 55 :: buf)

/-- A concrete XOF reader that emits its seed bytes in order. -/
def toyReader : XofReaderImpl (List Nat) where
  read := fun r n => (r.drop n, r.take n)

/-! Supporting lemmas. -/

theorem splitBlocks_of_lt (bs : Nat) (l : List Nat) (h : ¬(0 < bs ∧ bs ≤ l.length)) :
    splitBlocks bs l = ([], l) := by
  rw [splitBlocks]
  simp [h]

theorem splitBlocks_of_le (bs : Nat) (l : List Nat) (h : 0 < bs ∧ bs ≤ l.length) :
    splitBlocks bs l =
      ((l.take bs) :: (splitBlocks bs (l.drop bs)).1, (splitBlocks bs (l.drop bs)).2) := by
  rw [splitBlocks]
  simp [h]

/-- Slicing a concatenation: the whole blocks of `l ++ m` are the whole
blocks of `l` followed by the whole blocks of the remainder of `l`
prepended to `m`, and the final remainders agree. -/
theorem splitBlocks_append (bs : Nat) (l m : List Nat) :
    splitBlocks bs (l ++ m) =
      ((splitBlocks bs l).1 ++ (splitBlocks bs ((splitBlocks bs l).2 ++ m)).1,
       (splitBlocks bs ((splitBlocks bs l).2 ++ m)).2) := by
  generalize hn : l.length = n
  induction n using Nat.strong_induction_on generalizing l with
  | _ n ih =>
    subst hn
    by_cases h : 0 < bs ∧ bs ≤ l.length
    · have h2 : 0 < bs ∧ bs ≤ (l ++ m).length := ⟨h.1, by simp; omega⟩
      rw [splitBlocks_of_le bs l h, splitBlocks_of_le bs (l ++ m) h2]
      simp only [List.take_append_of_le_length h.2, List.drop_append_of_le_length h.2]
      have hlen : (l.drop bs).length < l.length := by
        simp only [List.length_drop]; omega
      rw [ih (l.drop bs).length hlen (l.drop bs) rfl]
      simp
    · rw [splitBlocks_of_lt bs l h]
      simp

/-- With a positive block size, the remainder left by slicing is always
strictly shorter than one block. -/
theorem splitBlocks_rem_lt (bs : Nat) (hbs : 0 < bs) (l : List Nat) :
    (splitBlocks bs l).2.length < bs := by
  generalize hn : l.length = n
  induction n using Nat.strong_induction_on generalizing l with
  | _ n ih =>
    subst hn
    by_cases h : 0 < bs ∧ bs ≤ l.length
    · rw [splitBlocks_of_le bs l h]
      have hlen : (l.drop bs).length < l.length := by
        simp only [List.length_drop]; omega
      exact ih (l.drop bs).length hlen (l.drop bs) rfl
    · rw [splitBlocks_of_lt bs l h]
      simp only [not_and, not_le] at h
      exact h hbs

/-- Composition of two `update` calls over a lawful core equals one
`update` with the concatenated input. -/
theorem update_update {σ : Type} (c : UpdateCore σ) (hc : c.Lawful)
    (w : CoreWrapper σ) (a b : List Nat) :
    CoreWrapper.update c (CoreWrapper.update c w a) b =
      CoreWrapper.update c w (a ++ b) := by
  show CoreWrapper.mk _ _ = CoreWrapper.mk _ _
  rw [← List.append_assoc]
  rw [splitBlocks_append c.blockSize (w.buffer ++ a) b]
  simp only [CoreWrapper.update]
  rw [hc.2]

/-- Feeding chunks one by one after an initial `update` equals one
`update` with everything concatenated. -/
theorem updateChunks_eq_update {σ : Type} (c : UpdateCore σ) (hc : c.Lawful)
    (w : CoreWrapper σ) (a : List Nat) (chunks : List (List Nat)) :
    updateChunks c (CoreWrapper.update c w a) chunks =
      CoreWrapper.update c w (a ++ chunks.flatten) := by
  induction chunks generalizing a with
  | nil => simp [updateChunks]
  | cons ch rest ih =>
    simp only [updateChunks, List.foldl_cons] at ih ⊢
    rw [update_update c hc w a ch, ih (a ++ ch)]
    simp

/-- On the default adapter an empty `update` is the identity. -/
theorem update_defaultOf_nil {σ : Type} (c : UpdateCore σ) (hc : c.Lawful) (i : σ) :
    CoreWrapper.update c (CoreWrapper.defaultOf i) [] = CoreWrapper.defaultOf i := by
  simp only [CoreWrapper.update, CoreWrapper.defaultOf, List.nil_append]
  rw [splitBlocks_of_lt]
  · simp [hc.1]
  · simp only [List.length_nil]
    omega

/-- Feeding a chunk list into a fresh adapter equals one `update` with the
concatenation, over a lawful core. -/
theorem updateChunks_defaultOf {σ : Type} (c : UpdateCore σ) (hc : c.Lawful) (i : σ)
    (chunks : List (List Nat)) :
    updateChunks c (CoreWrapper.defaultOf i) chunks =
      CoreWrapper.update c (CoreWrapper.defaultOf i) chunks.flatten := by
  have h0 := update_defaultOf_nil c hc i
  calc updateChunks c (CoreWrapper.defaultOf i) chunks
      = updateChunks c (CoreWrapper.update c (CoreWrapper.defaultOf i) []) chunks := by
        rw [h0]
    _ = CoreWrapper.update c (CoreWrapper.defaultOf i) ([] ++ chunks.flatten) :=
        updateChunks_eq_update c hc _ [] chunks
    _ = CoreWrapper.update c (CoreWrapper.defaultOf i) chunks.flatten := by
        rw [List.nil_append]

/-- The toy core honours the `update_blocks` contract. -/
theorem toyCore_lawful : toyCore.toUpdateCore.Lawful := by
  constructor
  · intro s
    simp [toyCore, UpdateCore.Lawful]
  · intro s b1 b2
    simp [toyCore]

/-- The toy XOF core honours the `update_blocks` contract. -/
theorem toyXof_lawful : toyXof.toUpdateCore.Lawful := by
  constructor
  · intro s
    simp [toyXof, UpdateCore.Lawful]
  · intro s b1 b2
    simp [toyXof]

/-- The two wrapper `update` implementations coincide over the same
update dictionary. -/
theorem dirty_update_toCW {σ : Type} (u : UpdateCore σ)
    (wd : DirtyWrapper σ) (input : List Nat) :
    (DirtyWrapper.update u wd input).toCW =
      CoreWrapper.update u wd.toCW input := by
  simp [DirtyWrapper.update, CoreWrapper.update, DirtyWrapper.toCW]

/-- The two wrapper `reset` implementations coincide over the same reset
primitive. -/
theorem dirty_reset_toCW {σ : Type} (rst : σ → σ) (wd : DirtyWrapper σ) :
    (DirtyWrapper.reset rst wd).toCW = CoreWrapper.reset rst wd.toCW := by
  simp [DirtyWrapper.reset, CoreWrapper.reset, DirtyWrapper.toCW]

/-- Any streaming run of the wrapper.rs adapter mirrors the corresponding
run of the core_api.rs adapter over the same core primitives. -/
theorem runOpsDirty_toCW {σ : Type} (u : UpdateCore σ) (rst : σ → σ)
    (wd : DirtyWrapper σ) (ops : List HashOp) :
    (runOpsDirty u rst wd ops).toCW = runOps u rst wd.toCW ops := by
  induction ops generalizing wd with
  | nil => rfl
  | cons op rest ih =>
    cases op with
    | upd input =>
      simp only [runOpsDirty, runOps]
      rw [ih (DirtyWrapper.update u wd input), dirty_update_toCW u]
    | rst =>
      simp only [runOpsDirty, runOps]
      rw [ih (DirtyWrapper.reset rst wd), dirty_reset_toCW rst]

/-! Claim theorems. -/

/-- Claim C1: chunking invariance of the streaming update — digesting a
concatenation in one shot equals a fresh adapter updated with `a` then
`b` then finalized, and any chunking of the same total input yields the
identical digest.  The hypothesis is the documented `update_blocks`
contract of the wrapped core. -/
theorem digest_chunking_invariance {σ : Type} (c : FixedOutputCore σ)
    (hc : c.toUpdateCore.Lawful) (a b : List Nat) (chunks : List (List Nat)) :
    Digest.digest c (a ++ b) =
      Digest.finalize c
        (CoreWrapper.update c.toUpdateCore
          (CoreWrapper.update c.toUpdateCore (Digest.new c) a) b) ∧
    (chunks.flatten = a ++ b →
      Digest.finalize c (updateChunks c.toUpdateCore (Digest.new c) chunks) =
        Digest.digest c (a ++ b)) := by
  constructor
  · unfold Digest.digest Digest.finalize Digest.new
    rw [update_update c.toUpdateCore hc]
  · intro hj
    unfold Digest.finalize Digest.digest Digest.new
    rw [updateChunks_defaultOf c.toUpdateCore hc c.init chunks, hj]

/-- Claim C2: the facade's `finalize_reset` yields the digest of (a clone
of) the current adapter, and afterwards the adapter is exactly a freshly
constructed one, hence behaves identically on every subsequent message.
The hypothesis is the documented `Reset` contract of the wrapped core
(reset restores the construction-time state). -/
theorem finalize_reset_clone_semantics {σ : Type} (c : FixedOutputCore σ)
    (hreset : ∀ s, c.reset s = c.init) (w : CoreWrapper σ) :
    (Digest.finalize_reset c w).2 = Digest.finalize c w ∧
    (Digest.finalize_reset c w).1 = Digest.new c ∧
    (∀ m, Digest.finalize c (Digest.update c (Digest.finalize_reset c w).1 m) =
        Digest.finalize c (Digest.update c (Digest.new c) m)) := by
  have hstate : (Digest.finalize_reset c w).1 = Digest.new c := by
    simp [Digest.finalize_reset, Digest.new, CoreWrapper.reset, CoreWrapper.defaultOf,
      hreset]
  exact ⟨rfl, hstate, fun m => by rw [hstate]⟩

/-- Claim C3: `finalize_into_reset` writes the digest the consuming
`finalize_into` would produce on the same state, and leaves the adapter
in its construction-time state (core reset, buffer empty).  The
hypothesis is the documented `Reset` contract of the wrapped core. -/
theorem finalize_into_reset_writes_and_resets {σ : Type} (c : FixedOutputCore σ)
    (hreset : ∀ s, c.reset s = c.init) (w : CoreWrapper σ) :
    (CoreWrapper.finalize_into_reset c w).2 = CoreWrapper.finalize_into c w ∧
    (CoreWrapper.finalize_into_reset c w).1 = CoreWrapper.defaultOf c.init := by
  refine ⟨rfl, ?_⟩
  simp [CoreWrapper.finalize_into_reset, CoreWrapper.reset, CoreWrapper.defaultOf, hreset]

/-- Claim C4: an `update` with a zero-length input leaves the adapter
(core state and partial-block buffer) unchanged, on every state
satisfying the reachable-state buffer invariant; the first hypothesis is
the documented contract that absorbing zero blocks is a no-op. -/
theorem update_empty_is_noop {σ : Type} (c : UpdateCore σ)
    (hnil : ∀ s, c.update_blocks s [] = s)
    (w : CoreWrapper σ) (hw : w.buffer.length < c.blockSize) :
    CoreWrapper.update c w [] = w := by
  simp only [CoreWrapper.update, List.append_nil]
  rw [splitBlocks_of_lt]
  · rw [hnil]
  · omega

/-- Claim C5: the partial-block buffer is strictly shorter than one block
at every observable point — after construction, after `reset`, after
every `update` (whole blocks are drained into the core), and after
`finalize_into_reset` (the buffer is cleared). -/
theorem buffer_length_invariant {σ : Type} (c : FixedOutputCore σ)
    (hbs : 0 < c.blockSize) :
    (CoreWrapper.defaultOf c.init).buffer.length < c.blockSize ∧
    (∀ w : CoreWrapper σ,
      (CoreWrapper.reset c.reset w).buffer.length < c.blockSize) ∧
    (∀ (w : CoreWrapper σ) (input : List Nat),
      (CoreWrapper.update c.toUpdateCore w input).buffer.length < c.blockSize) ∧
    (∀ w : CoreWrapper σ,
      (CoreWrapper.finalize_into_reset c w).1.buffer.length < c.blockSize) := by
  refine ⟨by simpa [CoreWrapper.defaultOf] using hbs,
    fun w => by simpa [CoreWrapper.reset] using hbs,
    fun w input => ?_,
    fun w => by simpa [CoreWrapper.finalize_into_reset, CoreWrapper.reset] using hbs⟩
  exact splitBlocks_rem_lt c.blockSize hbs (w.buffer ++ input)

/-- Claim C6: the raw-byte-sink binding never fails — `write` mutates the
adapter exactly as `update` would and returns Ok with the full input
length, and `flush` returns Ok leaving the state unchanged. -/
theorem write_flush_never_fail {σ : Type} (c : UpdateCore σ) (w : CoreWrapper σ)
    (buf : List Nat) :
    CoreWrapper.write c w buf = (CoreWrapper.update c w buf, Except.ok buf.length) ∧
    CoreWrapper.flush w = (w, Except.ok ()) :=
  ⟨rfl, rfl⟩

/-- Claim C7: the two near-duplicate `CoreWrapper` implementations
(core_api.rs over `FixedOutputCore`/`ExtendableOutputCore` and wrapper.rs
over `FixedOutputDirtyCore`/`ExtendableOutputDirtyCore`) are behaviourally
equivalent: wrapped around the same core primitives, any sequence of
update/reset operations followed by a finalize (fixed-output or XOF,
consuming or resetting) produces identical outputs and identical final
states on both adapters. -/
theorem wrapper_impls_equivalent {σ τ ρ : Type} (c : FixedOutputCore σ)
    (d : FixedOutputDirtyCore σ)
    (hbs : d.blockSize = c.blockSize) (hub : d.update_blocks = c.update_blocks)
    (hin : d.init = c.init) (hrst : d.reset = c.reset)
    (hfin : d.finalize_into_dirty_core = c.finalize_fixed_core)
    (cx : ExtendableOutputCore τ ρ) (dx : ExtendableOutputDirtyCore τ ρ)
    (hxbs : dx.blockSize = cx.blockSize) (hxub : dx.update_blocks = cx.update_blocks)
    (hxin : dx.init = cx.init) (hxrst : dx.reset = cx.reset)
    (hxfin : dx.finalize_xof_dirty_core = cx.finalize_xof_core)
    (ops : List HashOp) :
    (runOpsDirty d.toUpdateCore d.reset (DirtyWrapper.defaultOf d.init) ops).toCW =
      runOps c.toUpdateCore c.reset (CoreWrapper.defaultOf c.init) ops ∧
    DirtyWrapper.finalize_into d
        (runOpsDirty d.toUpdateCore d.reset (DirtyWrapper.defaultOf d.init) ops) =
      CoreWrapper.finalize_into c
        (runOps c.toUpdateCore c.reset (CoreWrapper.defaultOf c.init) ops) ∧
    (DirtyWrapper.finalize_into_reset d
        (runOpsDirty d.toUpdateCore d.reset (DirtyWrapper.defaultOf d.init) ops)).1.toCW =
      (CoreWrapper.finalize_into_reset c
        (runOps c.toUpdateCore c.reset (CoreWrapper.defaultOf c.init) ops)).1 ∧
    (DirtyWrapper.finalize_into_reset d
        (runOpsDirty d.toUpdateCore d.reset (DirtyWrapper.defaultOf d.init) ops)).2 =
      (CoreWrapper.finalize_into_reset c
        (runOps c.toUpdateCore c.reset (CoreWrapper.defaultOf c.init) ops)).2 ∧
    (runOpsDirty dx.toUpdateCore dx.reset (DirtyWrapper.defaultOf dx.init) ops).toCW =
      runOps cx.toUpdateCore cx.reset (CoreWrapper.defaultOf cx.init) ops ∧
    DirtyWrapper.finalize_xof dx
        (runOpsDirty dx.toUpdateCore dx.reset (DirtyWrapper.defaultOf dx.init) ops) =
      CoreWrapper.finalize_xof cx
        (runOps cx.toUpdateCore cx.reset (CoreWrapper.defaultOf cx.init) ops) ∧
    (DirtyWrapper.finalize_xof_reset dx
        (runOpsDirty dx.toUpdateCore dx.reset (DirtyWrapper.defaultOf dx.init) ops)).1.toCW =
      (CoreWrapper.finalize_xof_reset cx
        (runOps cx.toUpdateCore cx.reset (CoreWrapper.defaultOf cx.init) ops)).1 ∧
    (DirtyWrapper.finalize_xof_reset dx
        (runOpsDirty dx.toUpdateCore dx.reset (DirtyWrapper.defaultOf dx.init) ops)).2 =
      (CoreWrapper.finalize_xof_reset cx
        (runOps cx.toUpdateCore cx.reset (CoreWrapper.defaultOf cx.init) ops)).2 := by
  have hu : d.toUpdateCore = c.toUpdateCore := by
    show UpdateCore.mk d.blockSize d.update_blocks =
      UpdateCore.mk c.blockSize c.update_blocks
    rw [hbs, hub]
  have hdef : (DirtyWrapper.defaultOf d.init).toCW = CoreWrapper.defaultOf c.init := by
    simp [DirtyWrapper.defaultOf, CoreWrapper.defaultOf, DirtyWrapper.toCW, hin]
  have hrun : (runOpsDirty d.toUpdateCore d.reset (DirtyWrapper.defaultOf d.init) ops).toCW =
      runOps c.toUpdateCore c.reset (CoreWrapper.defaultOf c.init) ops := by
    rw [runOpsDirty_toCW, hu, hrst, hdef]
  have hcore := congrArg CoreWrapper.core hrun
  have hbuf := congrArg CoreWrapper.buffer hrun
  simp only [DirtyWrapper.toCW] at hcore hbuf
  have hxu : dx.toUpdateCore = cx.toUpdateCore := by
    show UpdateCore.mk dx.blockSize dx.update_blocks =
      UpdateCore.mk cx.blockSize cx.update_blocks
    rw [hxbs, hxub]
  have hxdef : (DirtyWrapper.defaultOf dx.init).toCW = CoreWrapper.defaultOf cx.init := by
    simp [DirtyWrapper.defaultOf, CoreWrapper.defaultOf, DirtyWrapper.toCW, hxin]
  have hxrun : (runOpsDirty dx.toUpdateCore dx.reset
      (DirtyWrapper.defaultOf dx.init) ops).toCW =
      runOps cx.toUpdateCore cx.reset (CoreWrapper.defaultOf cx.init) ops := by
    rw [runOpsDirty_toCW, hxu, hxrst, hxdef]
  have hxcore := congrArg CoreWrapper.core hxrun
  have hxbuf := congrArg CoreWrapper.buffer hxrun
  simp only [DirtyWrapper.toCW] at hxcore hxbuf
  refine ⟨hrun, ?_, ?_, ?_, hxrun, ?_, ?_, ?_⟩
  · simp only [DirtyWrapper.finalize_into, CoreWrapper.finalize_into]
    rw [hfin, hcore, hbuf]
  · simp only [DirtyWrapper.finalize_into_reset, CoreWrapper.finalize_into_reset,
      DirtyWrapper.reset, CoreWrapper.reset, DirtyWrapper.toCW]
    rw [hfin, hcore, hbuf, hrst]
  · simp only [DirtyWrapper.finalize_into_reset, CoreWrapper.finalize_into_reset]
    rw [hfin, hcore, hbuf]
  · simp only [DirtyWrapper.finalize_xof, CoreWrapper.finalize_xof]
    rw [hxfin, hxcore, hxbuf]
  · simp only [DirtyWrapper.finalize_xof_reset, CoreWrapper.finalize_xof_reset,
      DirtyWrapper.reset, CoreWrapper.reset, DirtyWrapper.toCW]
    rw [hxfin, hxcore, hxbuf, hxrst]
  · simp only [DirtyWrapper.finalize_xof_reset, CoreWrapper.finalize_xof_reset]
    rw [hxfin, hxcore, hxbuf]

/-- Claim C8: XOF determinism — two freshly constructed adapters fed the
same total input (under any chunking) yield the same reader from
`finalize_xof`, and hence byte-identical output streams for any matching
sequence of read lengths. -/
theorem xof_streams_deterministic {σ ρ : Type} (c : ExtendableOutputCore σ ρ)
    (hc : c.toUpdateCore.Lawful) (R : XofReaderImpl ρ)
    (chunks1 chunks2 : List (List Nat)) (hjoin : chunks1.flatten = chunks2.flatten) :
    CoreWrapper.finalize_xof c
        (updateChunks c.toUpdateCore (CoreWrapper.defaultOf c.init) chunks1) =
      CoreWrapper.finalize_xof c
        (updateChunks c.toUpdateCore (CoreWrapper.defaultOf c.init) chunks2) ∧
    (∀ lens : List Nat,
      readStream R (CoreWrapper.finalize_xof c
          (updateChunks c.toUpdateCore (CoreWrapper.defaultOf c.init) chunks1)) lens =
        readStream R (CoreWrapper.finalize_xof c
          (updateChunks c.toUpdateCore (CoreWrapper.defaultOf c.init) chunks2)) lens) := by
  have hstate : updateChunks c.toUpdateCore (CoreWrapper.defaultOf c.init) chunks1 =
      updateChunks c.toUpdateCore (CoreWrapper.defaultOf c.init) chunks2 := by
    rw [updateChunks_defaultOf c.toUpdateCore hc c.init chunks1,
      updateChunks_defaultOf c.toUpdateCore hc c.init chunks2, hjoin]
  exact ⟨by rw [hstate], fun lens => by rw [hstate]⟩

/-- Claim C9: the static convenience `digest(data)` equals default
construction, a single `chain` with the data, and the consuming
`finalize`. -/
theorem digest_eq_new_chain_finalize {σ : Type} (c : FixedOutputCore σ) (d : List Nat) :
    Digest.digest c d = Digest.finalize c (Digest.chain c (Digest.new c) d) :=
  rfl

/-- Claim C10: the facade's clone-based `Digest::finalize_reset` returns
the same digest and leaves the adapter in the same final state as the
in-place `FixedOutput::finalize_into_reset`.  The hypothesis is the
documented `Reset` contract of the wrapped core. -/
theorem finalize_reset_agrees_into_reset {σ : Type} (c : FixedOutputCore σ)
    (hreset : ∀ s, c.reset s = c.init) (w : CoreWrapper σ) :
    (Digest.finalize_reset c w).2 = (CoreWrapper.finalize_into_reset c w).2 ∧
    (Digest.finalize_reset c w).1 = (CoreWrapper.finalize_into_reset c w).1 := by
  refine ⟨rfl, ?_⟩
  simp [Digest.finalize_reset, CoreWrapper.finalize_into_reset, CoreWrapper.reset, hreset]

/-! Witnesses: each theorem with hypotheses applied at the toy cores on
concrete inputs. -/

/-- Witness for claim C1 at the toy core with a = [1], b = [2, 3] and the
chunking [[1, 2], [3]]. -/
theorem digest_chunking_invariance_witness :
    Digest.digest toyCore ([1] ++ [2, 3]) =
      Digest.finalize toyCore
        (CoreWrapper.update toyCore.toUpdateCore
          (CoreWrapper.update toyCore.toUpdateCore (Digest.new toyCore) [1]) [2, 3]) ∧
    Digest.finalize toyCore
        (updateChunks toyCore.toUpdateCore (Digest.new toyCore) [[1, 2], [3]]) =
      Digest.digest toyCore ([1] ++ [2, 3]) :=
  have h := digest_chunking_invariance toyCore toyCore_lawful [1] [2, 3] [[1, 2], [3]]
  ⟨h.1, h.2 (by decide)⟩

/-- Witness for claim C2 at the toy core on a concrete absorbed state,
with the subsequent message [7]. -/
theorem finalize_reset_clone_semantics_witness :
    (Digest.finalize_reset toyCore ⟨[1, 2], [3]⟩).2 =
      Digest.finalize toyCore ⟨[1, 2], [3]⟩ ∧
    (Digest.finalize_reset toyCore ⟨[1, 2], [3]⟩).1 = Digest.new toyCore ∧
    Digest.finalize toyCore
        (Digest.update toyCore (Digest.finalize_reset toyCore ⟨[1, 2], [3]⟩).1 [7]) =
      Digest.finalize toyCore (Digest.update toyCore (Digest.new toyCore) [7]) :=
  have h := finalize_reset_clone_semantics toyCore (fun _ => rfl) ⟨[1, 2], [3]⟩
  ⟨h.1, h.2.1, h.2.2 [7]⟩

/-- Witness for claim C3 at the toy core on a concrete state. -/
theorem finalize_into_reset_writes_and_resets_witness :
    (CoreWrapper.finalize_into_reset toyCore ⟨[4], [5]⟩).2 =
      CoreWrapper.finalize_into toyCore ⟨[4], [5]⟩ ∧
    (CoreWrapper.finalize_into_reset toyCore ⟨[4], [5]⟩).1 =
      CoreWrapper.defaultOf toyCore.init :=
  finalize_into_reset_writes_and_resets toyCore (fun _ => rfl) ⟨[4], [5]⟩

/-- Witness for claim C4 at the toy core on a concrete state with a
one-byte remainder. -/
theorem update_empty_is_noop_witness :
    CoreWrapper.update toyCore.toUpdateCore ⟨[5], [7]⟩ [] =
      (⟨[5], [7]⟩ : CoreWrapper (List Nat)) :=
  update_empty_is_noop toyCore.toUpdateCore toyCore_lawful.1 ⟨[5], [7]⟩ (by decide)

/-- Witness for claim C5 at the toy core, on concrete states and input. -/
theorem buffer_length_invariant_witness :
    (CoreWrapper.defaultOf toyCore.init).buffer.length < toyCore.blockSize ∧
    (CoreWrapper.reset toyCore.reset ⟨[1], [2]⟩).buffer.length < toyCore.blockSize ∧
    (CoreWrapper.update toyCore.toUpdateCore ⟨[1], [2]⟩ [3, 4]).buffer.length <
      toyCore.blockSize ∧
    (CoreWrapper.finalize_into_reset toyCore ⟨[1], [2]⟩).1.buffer.length <
      toyCore.blockSize :=
  have h := buffer_length_invariant toyCore (by decide)
  ⟨h.1, h.2.1 ⟨[1], [2]⟩, h.2.2.1 ⟨[1], [2]⟩ [3, 4], h.2.2.2 ⟨[1], [2]⟩⟩

/-- Witness for claim C7: the toy fixed and XOF cores and their dirty
counterparts share their primitives, run on a concrete sequence of
update and reset operations. -/
theorem wrapper_impls_equivalent_witness :
    (runOpsDirty toyDirty.toUpdateCore toyDirty.reset
        (DirtyWrapper.defaultOf toyDirty.init)
        [HashOp.upd [1, 2, 3], HashOp.rst, HashOp.upd [4, 5, 6]]).toCW =
      runOps toyCore.toUpdateCore toyCore.reset (CoreWrapper.defaultOf toyCore.init)
        [HashOp.upd [1, 2, 3], HashOp.rst, HashOp.upd [4, 5, 6]] ∧
    DirtyWrapper.finalize_into toyDirty
        (runOpsDirty toyDirty.toUpdateCore toyDirty.reset
          (DirtyWrapper.defaultOf toyDirty.init)
          [HashOp.upd [1, 2, 3], HashOp.rst, HashOp.upd [4, 5, 6]]) =
      CoreWrapper.finalize_into toyCore
        (runOps toyCore.toUpdateCore toyCore.reset (CoreWrapper.defaultOf toyCore.init)
          [HashOp.upd [1, 2, 3], HashOp.rst, HashOp.upd [4, 5, 6]]) ∧
    (DirtyWrapper.finalize_into_reset toyDirty
        (runOpsDirty toyDirty.toUpdateCore toyDirty.reset
          (DirtyWrapper.defaultOf toyDirty.init)
          [HashOp.upd [1, 2, 3], HashOp.rst, HashOp.upd [4, 5, 6]])).1.toCW =
      (CoreWrapper.finalize_into_reset toyCore
        (runOps toyCore.toUpdateCore toyCore.reset (CoreWrapper.defaultOf toyCore.init)
          [HashOp.upd [1, 2, 3], HashOp.rst, HashOp.upd [4, 5, 6]])).1 ∧
    (DirtyWrapper.finalize_into_reset toyDirty
        (runOpsDirty toyDirty.toUpdateCore toyDirty.reset
          (DirtyWrapper.defaultOf toyDirty.init)
          [HashOp.upd [1, 2, 3], HashOp.rst, HashOp.upd [4, 5, 6]])).2 =
      (CoreWrapper.finalize_into_reset toyCore
        (runOps toyCore.toUpdateCore toyCore.reset (CoreWrapper.defaultOf toyCore.init)
          [HashOp.upd [1, 2, 3], HashOp.rst, HashOp.upd [4, 5, 6]])).2 ∧
    (runOpsDirty toyXofDirty.toUpdateCore toyXofDirty.reset
        (DirtyWrapper.defaultOf toyXofDirty.init)
        [HashOp.upd [1, 2, 3], HashOp.rst, HashOp.upd [4, 5, 6]]).toCW =
      runOps toyXof.toUpdateCore toyXof.reset (CoreWrapper.defaultOf toyXof.init)
        [HashOp.upd [1, 2, 3], HashOp.rst, HashOp.upd [4, 5, 6]] ∧
    DirtyWrapper.finalize_xof toyXofDirty
        (runOpsDirty toyXofDirty.toUpdateCore toyXofDirty.reset
          (DirtyWrapper.defaultOf toyXofDirty.init)
          [HashOp.upd [1, 2, 3], HashOp.rst, HashOp.upd [4, 5, 6]]) =
      CoreWrapper.finalize_xof toyXof
        (runOps toyXof.toUpdateCore toyXof.reset (CoreWrapper.defaultOf toyXof.init)
          [HashOp.upd [1, 2, 3], HashOp.rst, HashOp.upd [4, 5, 6]]) ∧
    (DirtyWrapper.finalize_xof_reset toyXofDirty
        (runOpsDirty toyXofDirty.toUpdateCore toyXofDirty.reset
          (DirtyWrapper.defaultOf toyXofDirty.init)
          [HashOp.upd [1, 2, 3], HashOp.rst, HashOp.upd [4, 5, 6]])).1.toCW =
      (CoreWrapper.finalize_xof_reset toyXof
        (runOps toyXof.toUpdateCore toyXof.reset (CoreWrapper.defaultOf toyXof.init)
          [HashOp.upd [1, 2, 3], HashOp.rst, HashOp.upd [4, 5, 6]])).1 ∧
    (DirtyWrapper.finalize_xof_reset toyXofDirty
        (runOpsDirty toyXofDirty.toUpdateCore toyXofDirty.reset
          (DirtyWrapper.defaultOf toyXofDirty.init)
          [HashOp.upd [1, 2, 3], HashOp.rst, HashOp.upd [4, 5, 6]])).2 =
      (CoreWrapper.finalize_xof_reset toyXof
        (runOps toyXof.toUpdateCore toyXof.reset (CoreWrapper.defaultOf toyXof.init)
          [HashOp.upd [1, 2, 3], HashOp.rst, HashOp.upd [4, 5, 6]])).2 :=
  wrapper_impls_equivalent toyCore toyDirty rfl rfl rfl rfl rfl
    toyXof toyXofDirty rfl rfl rfl rfl rfl
    [HashOp.upd [1, 2, 3], HashOp.rst, HashOp.upd [4, 5, 6]]

/-- Witness for claim C8 at the toy XOF core with two chunkings of
[1, 2, 3] and reads of lengths 2 then 1. -/
theorem xof_streams_deterministic_witness :
    CoreWrapper.finalize_xof toyXof
        (updateChunks toyXof.toUpdateCore (CoreWrapper.defaultOf toyXof.init)
          [[1, 2], [3]]) =
      CoreWrapper.finalize_xof toyXof
        (updateChunks toyXof.toUpdateCore (CoreWrapper.defaultOf toyXof.init)
          [[1], [2, 3]]) ∧
    readStream toyReader
        (CoreWrapper.finalize_xof toyXof
          (updateChunks toyXof.toUpdateCore (CoreWrapper.defaultOf toyXof.init)
            [[1, 2], [3]])) [2, 1] =
      readStream toyReader
        (CoreWrapper.finalize_xof toyXof
          (updateChunks toyXof.toUpdateCore (CoreWrapper.defaultOf toyXof.init)
            [[1], [2, 3]])) [2, 1] :=
  have h := xof_streams_deterministic toyXof toyXof_lawful toyReader
    [[1, 2], [3]] [[1], [2, 3]] (by decide)
  ⟨h.1, h.2 [2, 1]⟩

/-- Witness for claim C10 at the toy core on a concrete state. -/
theorem finalize_reset_agrees_into_reset_witness :
    (Digest.finalize_reset toyCore ⟨[9], [8]⟩).2 =
      (CoreWrapper.finalize_into_reset toyCore ⟨[9], [8]⟩).2 ∧
    (Digest.finalize_reset toyCore ⟨[9], [8]⟩).1 =
      (CoreWrapper.finalize_into_reset toyCore ⟨[9], [8]⟩).1 :=
  finalize_reset_agrees_into_reset toyCore (fun _ => rfl) ⟨[9], [8]⟩

end DigestSpec
